import Mathlib

/-!
Verification of the smile-robot movement engine (src/smile_robot.py together
with src/config.py): a shallow embedding of the engine state, the busy-claim
discipline, motion-program playback, the procedural motions, emergency stop,
and the command dispatch of the WebSocket server, with theorems settling the
specification claims.

Numeric angles are modelled as exact rationals (the source reads them as
decimal numbers; no claim here depends on floating-point rounding).
Time delays appear as explicit events carrying their duration in
milliseconds.  Actuator-level failures are modelled by a failure oracle
fed to an exception-aware runner, so that the try/except structure of the
source is reflected faithfully.
-/

namespace SmileRobot

/-- config.py: ALL_SERVOS = list(range(1, 11)). -/
def ALL_SERVOS : List Nat := [1, 2, 3, 4, 5, 6, 7, 8, 9, 10]

/-- config.py: REVERSED = [3, 4, 7, 8, 1, 6] (front legs and hips flipped). -/
def REVERSED : List Nat := [3, 4, 7, 8, 1, 6]

/-- config.py: CENTER_ANGLE = 120. -/
def CENTER_ANGLE : Rat := 120

/-- smile_robot.py: ROBOT_SEQUENCES, the name-to-file mapping. -/
def ROBOT_SEQUENCES : List (String × String) :=
  [("wave", "wave.csv"), ("nod", "nod.csv"), ("dance", "dance.csv"),
   ("happy", "happy.csv"), ("custom", "custom.csv")]

/-- Python dict.get(key, default) over an association list. -/
def dictGetD (d : List (String × String)) (k : String) (dflt : String) : String :=
  match d.lookup k with
  | some v => v
  | none => dflt

/-- The file path play_sequence builds for a sequence name:
os.path.join("poses", ROBOT_SEQUENCES.get(name, name + ".csv")). -/
def seqFile (name : String) : String :=
  "poses/" ++ dictGetD ROBOT_SEQUENCES name (name ++ ".csv")

/-- Mutable state of RobotController: connected flag, is_moving (the busy
flag), current_action, and the ids of the servos that connected. -/
structure EngineState where
  connected : Bool
  is_moving : Bool
  current_action : Option String
  servos : List Nat
deriving DecidableEq, Repr

/-- The engine state at construction time (RobotController.__init__). -/
def initState : EngineState :=
  { connected := false, is_moving := false, current_action := none, servos := [] }

/-- Observable events: actuator commands, sleeps, torque toggles, and the
writes to the busy flag (claim on motion entry, release in the finally
block, and the bare clear done by emergency_stop). -/
inductive Ev where
  | move (sid : Nat) (angle : Rat)
  | sleepMs (ms : Nat)
  | disableTorque (sid : Nat)
  | enableTorque (sid : Nat)
  | claimBusy (name : String)
  | releaseBusy
  | clearBusy
deriving DecidableEq, Repr

/-- One actuator-bus call or sleep inside a motion body.  guarded = true
when the source wraps the call in its own try/except pass (the failure is
swallowed and iteration continues); guarded = false when an exception from
the call propagates to the outer try of the motion. -/
inductive Act where
  | call (e : Ev) (guarded : Bool)
  | pause (ms : Nat)
deriving DecidableEq, Repr

/-- The event a single act attempts. -/
def actEvent : Act → Ev
  | Act.call e _ => e
  | Act.pause ms => Ev.sleepMs ms

/-- Whether every actuator call in the list is wrapped in its own
try/except. -/
def allGuarded (acts : List Act) : Bool :=
  acts.all fun a =>
    match a with
    | Act.call _ g => g
    | Act.pause _ => true

/-- Run a motion body under a failure oracle.  A failing unguarded call
raises: the remaining acts are skipped (Python exception reaching the outer
try) and the ok flag is false.  A failing guarded call is swallowed.  The
trace records every attempted event in order. -/
def runActs (fails : Ev → Bool) : List Act → List Ev × Bool
  | [] => ([], true)
  | Act.pause ms :: rest =>
    let r := runActs fails rest
    (Ev.sleepMs ms :: r.1, r.2)
  | Act.call e g :: rest =>
    if fails e && !g then ([e], false)
    else
      let r := runActs fails rest
      (e :: r.1, r.2)

/-- set_home_position: each connected servo is commanded to the center
angle, each call in its own try/except. -/
def home_acts (servos : List Nat) : List Act :=
  servos.map fun sid => Act.call (Ev.move sid CENTER_ANGLE) true

/-- The move events of a completed home sweep. -/
def home_moves (servos : List Nat) : List Ev :=
  servos.map fun sid => Ev.move sid CENTER_ANGLE

/-- Result of the synchronous part of play_sequence: the returned boolean,
the state as left by the call, whether a playback thread was spawned, and
the actuator events issued synchronously. -/
structure PlayResult where
  ok : Bool
  state : EngineState
  spawned : Bool
  events : List Ev
deriving DecidableEq, Repr

/-- play_sequence(sequence_name), synchronous part: rejects when not
connected or already moving, rejects when the sequence file is absent from
the store (the set of existing file paths), otherwise spawns the playback
thread and returns True.  No state field is written and no actuator is
touched on any synchronous path. -/
def play_sequence (store : List String) (s : EngineState) (name : String) : PlayResult :=
  if !s.connected || s.is_moving then
    { ok := false, state := s, spawned := false, events := [] }
  else if !(store.contains (seqFile name)) then
    { ok := false, state := s, spawned := false, events := [] }
  else
    { ok := true, state := s, spawned := true, events := [] }

/-- simple_wave body before the settle pause (lines 166 to 185): raise
arm, bend elbow, then three wave cycles on servo 2.  The moves are not
individually guarded. -/
def wave_pre (servos : List Nat) : List Act :=
  (if 1 ∈ servos then [Act.call (Ev.move 1 180) false] else [])
    ++ (if 2 ∈ servos then [Act.call (Ev.move 2 90) false] else [])
    ++ Act.pause 300
    :: (List.replicate 3
        ((if 2 ∈ servos then [Act.call (Ev.move 2 60) false] else [])
          ++ Act.pause 300
          :: (if 2 ∈ servos then [Act.call (Ev.move 2 120) false] else [])
          ++ [Act.pause 300])).flatten

/-- simple_wave body (lines 166 to 188): the wave moves, then the settle
pause and the home sweep (set_home guards each of its calls). -/
def wave_acts (servos : List Nat) : List Act :=
  wave_pre servos ++ Act.pause 500 :: home_acts servos

/-- simple_nod body (lines 208 to 216): everything is inside
if 3 in self.servos; three down-up cycles then a single re-center of
servo 3.  There is no home sweep. -/
def nod_acts (servos : List Nat) : List Act :=
  if 3 ∈ servos then
    (List.replicate 3
      [Act.call (Ev.move 3 100) false, Act.pause 300,
       Act.call (Ev.move 3 140) false, Act.pause 300]).flatten
      ++ [Act.call (Ev.move 3 120) false]
  else []

/-- The four dance positions (lines 237 to 242). -/
def dance_positions : List (List (Nat × Rat)) :=
  [[(1, 100), (2, 100), (3, 100)],
   [(1, 140), (2, 140), (3, 140)],
   [(1, 100), (2, 140), (3, 100)],
   [(1, 140), (2, 100), (3, 140)]]

/-- simple_dance body before the home sweep (lines 244 to 252): two passes
over the positions, each move in its own try/except, a 400 ms pause after
every position. -/
def dance_pre (servos : List Nat) : List Act :=
  (List.replicate 2
    ((dance_positions.map fun pos =>
      (pos.filterMap fun p =>
        if p.1 ∈ servos then some (Act.call (Ev.move p.1 p.2) true) else none)
        ++ [Act.pause 400])).flatten).flatten

/-- simple_dance body (lines 244 to 255): the dance moves, then the home
sweep (no settle pause before it). -/
def dance_acts (servos : List Nat) : List Act :=
  dance_pre servos ++ home_acts servos

/-- A completed procedural motion: entry check (not connected or already
moving means return with nothing done), claim of the busy flag with the
action name, the body run under the failure oracle (an unguarded failure
aborts the rest of the body), and the finally block releasing the busy
flag and clearing current_action. -/
def run_motion (fails : Ev → Bool) (s : EngineState) (name : String)
    (acts : List Act) : EngineState × List Ev :=
  if !s.connected || s.is_moving then (s, [])
  else
    ({ s with is_moving := false, current_action := none },
     Ev.claimBusy name :: (runActs fails acts).1 ++ [Ev.releaseBusy])

/-- simple_wave, as a whole. -/
def simple_wave (fails : Ev → Bool) (s : EngineState) : EngineState × List Ev :=
  run_motion fails s "wave" (wave_acts s.servos)

/-- simple_nod, as a whole. -/
def simple_nod (fails : Ev → Bool) (s : EngineState) : EngineState × List Ev :=
  run_motion fails s "nod" (nod_acts s.servos)

/-- simple_dance, as a whole. -/
def simple_dance (fails : Ev → Bool) (s : EngineState) : EngineState × List Ev :=
  run_motion fails s "dance" (dance_acts s.servos)

/-- The failure oracle under which every actuator call succeeds. -/
def noFail : Ev → Bool := fun _ => false

/-- emergency_stop body: disable torque on every connected servo (each call
guarded), sleep one second, re-enable torque on every connected servo
(each call guarded). -/
def emergency_stop_acts (servos : List Nat) : List Act :=
  (servos.map fun sid => Act.call (Ev.disableTorque sid) true)
    ++ Act.pause 1000
    :: (servos.map fun sid => Act.call (Ev.enableTorque sid) true)

/-- emergency_stop: first write is_moving = False (the clearBusy event at
the head of the trace), then run the torque cycle.  current_action is not
touched.  The ok flag records whether the call completed without an
escaping exception. -/
def emergency_stop (fails : Ev → Bool) (s : EngineState) : EngineState × List Ev × Bool :=
  let r := runActs fails (emergency_stop_acts s.servos)
  ({ s with is_moving := false }, Ev.clearBusy :: r.1, r.2)

/-- One CSV record of a motion program: required fields frame, servo_id and
angle. -/
structure Row where
  frame : Int
  servo_id : Nat
  angle : Rat
deriving DecidableEq, Repr

/-- Python dict assignment d[k] = v over an insertion-ordered association
list: an existing key keeps its position and gets the new value, a new key
is appended at the end. -/
def dinsert {α β : Type} [BEq α] (d : List (α × β)) (k : α) (v : β) : List (α × β) :=
  match d with
  | [] => [(k, v)]
  | (k0, v0) :: rest => if k0 == k then (k0, v) :: rest else (k0, v0) :: dinsert rest k v

/-- The angle transform applied at load time: 240 - angle for servo ids in
REVERSED, the identity otherwise. -/
def reversal_transform (sid : Nat) (a : Rat) : Rat :=
  if sid ∈ REVERSED then 240 - a else a

/-- The nested frames dictionary built by the CSV loop of
_play_sequence_thread: frame index to (servo id to angle). -/
abbrev Frames := List (Int × List (Nat × Rat))

/-- One iteration of the CSV loop: the angle is transformed (once, here, at
load time) and written into the inner dictionary of its frame. -/
def insertRow (frames : Frames) (r : Row) : Frames :=
  let angle := reversal_transform r.servo_id r.angle
  let inner := (frames.lookup r.frame).getD []
  dinsert frames r.frame (dinsert inner r.servo_id angle)

/-- The whole CSV loop. -/
def loadFrames (rows : List Row) : Frames :=
  rows.foldl insertRow []

/-- Insertion into an ascending list, for modelling Python sorted(). -/
def insAsc (x : Int) : List Int → List Int
  | [] => [x]
  | y :: ys => if x ≤ y then x :: y :: ys else y :: insAsc x ys

/-- Python sorted() on the frame keys: ascending order. -/
def sortAsc (l : List Int) : List Int :=
  l.foldr insAsc []

/-- The moves of one frame: every (servo id, angle) pair of the frame whose
servo id is among the connected servos, in the insertion order of the inner
dictionary; each move is wrapped in try/except pass. -/
def frame_moves (servos : List Nat) (fd : List (Nat × Rat)) : List Ev :=
  fd.filterMap fun p =>
    if p.1 ∈ servos then some (Ev.move p.1 p.2) else none

/-- The frame loop: the moves of each frame in order, with a 500 ms sleep
after every frame except the last. -/
def joinFrames : List (List Ev) → List Ev
  | [] => []
  | [b] => b
  | b :: rest => b ++ Ev.sleepMs 500 :: joinFrames rest

/-- The trace of _play_sequence_thread after the file was opened: load the
frames applying the reversal transform, sort the frame indices ascending,
play each frame with the inter-frame delay, then the 500 ms settle delay
and the home sweep (the playback thread runs with the connected servos of
the engine; play_sequence only spawns it when connected). -/
def play_thread_trace (servos : List Nat) (rows : List Row) : List Ev :=
  let frames := loadFrames rows
  let keys := sortAsc (frames.map Prod.fst)
  let blocks := keys.map fun k => frame_moves servos ((frames.lookup k).getD [])
  joinFrames blocks ++ Ev.sleepMs 500 :: home_moves servos

/-- Grouping of the CSV records with no angle transform, for the
specification-side description of playback. -/
def insertRowRaw (frames : Frames) (r : Row) : Frames :=
  let inner := (frames.lookup r.frame).getD []
  dinsert frames r.frame (dinsert inner r.servo_id r.angle)

/-- The raw frames dictionary, before any transform. -/
def loadFramesRaw (rows : List Row) : Frames :=
  rows.foldl insertRowRaw []

/-- Applying the ReversalSet transform to every angle of a frame, exactly
once. -/
def transformFrame (fd : List (Nat × Rat)) : List (Nat × Rat) :=
  fd.map fun p => (p.1, reversal_transform p.1 p.2)

/-- Modelled from the spec, for comparison with play_thread_trace: group
the records into frames, apply the ReversalSet transform to every frame
angle exactly once, sort the frames by index ascending, send a move to
every connected actuator referenced in each frame in order with a 500 ms
delay between consecutive frames and none after the final frame, then a
500 ms settle delay and the home sweep of setHome(). -/
def spec_playback_trace (servos : List Nat) (rows : List Row) : List Ev :=
  let frames := (loadFramesRaw rows).map fun kf => (kf.1, transformFrame kf.2)
  let keys := sortAsc (frames.map Prod.fst)
  let blocks := keys.map fun k => frame_moves servos ((frames.lookup k).getD [])
  joinFrames blocks ++ Ev.sleepMs 500 :: home_moves servos

/-- The calls trigger_robot_action dispatches inside its run_action
closure: attempts to play a stored program, and invocations of the
procedural motions. -/
inductive CallEv where
  | playProg (name : String)
  | procedural (name : String)
deriving DecidableEq, Repr

/-- The run_action closure of trigger_robot_action: for wave, nod and
dance, call play_sequence and, whenever it returns False, invoke the
corresponding procedural motion; for custom and for any other name, call
play_sequence alone. -/
def run_action (store : List String) (s : EngineState) (action : String) : List CallEv :=
  if action == "wave" then
    if (play_sequence store s "wave").ok then [CallEv.playProg "wave"]
    else [CallEv.playProg "wave", CallEv.procedural "wave"]
  else if action == "nod" then
    if (play_sequence store s "nod").ok then [CallEv.playProg "nod"]
    else [CallEv.playProg "nod", CallEv.procedural "nod"]
  else if action == "dance" then
    if (play_sequence store s "dance").ok then [CallEv.playProg "dance"]
    else [CallEv.playProg "dance", CallEv.procedural "dance"]
  else if action == "custom" then [CallEv.playProg "custom"]
  else [CallEv.playProg action]

/-- Result of trigger_robot_action: the returned boolean, whether the
run_action thread was spawned, and the calls that thread makes. -/
structure TriggerResult where
  ok : Bool
  spawned : Bool
  calls : List CallEv
deriving DecidableEq, Repr

/-- trigger_robot_action: fails immediately when the robot is not
connected; otherwise spawns the run_action thread and returns True without
waiting for it. -/
def trigger_robot_action (store : List String) (s : EngineState) (action : String) :
    TriggerResult :=
  if !s.connected then { ok := false, spawned := false, calls := [] }
  else { ok := true, spawned := true, calls := run_action store s action }

/-- The stats dictionary of SmileRobotServer, with last_smile as an
abstract timestamp. -/
structure Stats where
  total_smiles : Nat
  total_movements : Nat
  last_smile : Option Nat
deriving DecidableEq, Repr

/-- The response payload handle_smile builds; fields absent from a payload
are none. -/
structure SmileResp where
  message : String
  status : String
  smile_score : Option Rat
  total_movements : Option Nat
deriving DecidableEq, Repr

/-- Outcome of handle_smile: the updated stats, the response payload, and
whether it is broadcast to every client (true) or sent to the sender only
(false). -/
structure SmileOutcome where
  stats : Stats
  resp : SmileResp
  toAll : Bool
deriving DecidableEq, Repr

/-- handle_smile: unconditionally count the smile and stamp its time; when
the robot is not already moving, trigger the action and report Moving with
the smile score and the updated movement count on success, or a Busy
payload on failure; when already moving, report Busy.  Every payload is
broadcast. -/
def handle_smile (store : List String) (s : EngineState) (st : Stats)
    (now : Nat) (score : Rat) (action : String) : SmileOutcome :=
  let st1 := { st with total_smiles := st.total_smiles + 1, last_smile := some now }
  if !s.is_moving then
    if (trigger_robot_action store s action).ok then
      let st2 := { st1 with total_movements := st1.total_movements + 1 }
      { stats := st2,
        resp := { message := "Robot performing: " ++ action, status := "Moving",
                  smile_score := some score, total_movements := some st2.total_movements },
        toAll := true }
    else
      { stats := st1,
        resp := { message := "Robot is busy or action failed", status := "Busy",
                  smile_score := none, total_movements := none },
        toAll := true }
  else
    { stats := st1,
      resp := { message := "Robot is already moving", status := "Busy",
                smile_score := none, total_movements := none },
      toAll := true }

/-- broadcast: deliver a message to every currently connected client. -/
def broadcast {C : Type} (clients : List C) (m : String) : List (C × String) :=
  clients.map fun c => (c, m)

/-- Delivery of a handler result: a broadcast reaches every client, a
sender-only reply reaches exactly the sender. -/
def deliver {C : Type} (toAll : Bool) (sender : C) (clients : List C) (m : String) :
    List (C × String) :=
  if toAll then broadcast clients m else [(sender, m)]

/-- Engine operations at the granularity visible to the busy/current_action
invariant.  playStart is the spawned playback thread reaching its first
two assignments (is_moving = True; current_action = name) after the
synchronous checks of play_sequence passed with the program found;
playFinish and procFinish are the finally blocks; procStart is the entry
of a procedural motion; estop is emergency_stop, which writes only
is_moving; connect records the servos that came up. -/
inductive EngineOp where
  | connect (okServos : List Nat)
  | playStart (name : String) (found : Bool)
  | playFinish
  | procStart (name : String)
  | procFinish
  | estop
  | disconnect
deriving DecidableEq, Repr

/-- Effect of one engine operation on the engine state. -/
def applyOp (s : EngineState) : EngineOp → EngineState
  | EngineOp.connect okServos =>
    { s with connected := !okServos.isEmpty, servos := okServos }
  | EngineOp.playStart name found =>
    if !s.connected || s.is_moving then s
    else if !found then s
    else { s with is_moving := true, current_action := some name }
  | EngineOp.playFinish => { s with is_moving := false, current_action := none }
  | EngineOp.procStart name =>
    if !s.connected || s.is_moving then s
    else { s with is_moving := true, current_action := some name }
  | EngineOp.procFinish => { s with is_moving := false, current_action := none }
  | EngineOp.estop => { s with is_moving := false }
  | EngineOp.disconnect => { s with connected := false }

/-- A sequence of engine operations applied from a start state. -/
def applyOps (s : EngineState) (ops : List EngineOp) : EngineState :=
  ops.foldl applyOp s

/-- The engine-state invariant: the busy flag is set exactly when an action
name is recorded. -/
def engineInv (s : EngineState) : Prop :=
  s.is_moving = true ↔ s.current_action ≠ none

instance (s : EngineState) : Decidable (engineInv s) := by
  unfold engineInv; infer_instance

/-- Interleaving model of two concurrent motion triggers.  Program counter
of one trigger: 0 = about to run the busy check (play_sequence line 84 or
simple_wave line 158); 1 = passed the check but not yet written is_moving
(the gap: returning from the check, spawning the thread, entering it); 2 =
wrote is_moving = True and is executing its motion; 3 = finished or was
rejected by the check. -/
structure TrigSys where
  busy : Bool
  pc1 : Fin 4
  pc2 : Fin 4
deriving DecidableEq, Fintype, Repr

/-- One step of a trigger as the source writes it: the busy check and the
write of the busy flag are two separate atomic actions with a gap between
them. -/
def stepGap (busy : Bool) (pc : Fin 4) : Bool × Fin 4 :=
  match pc.val with
  | 0 => if busy then (busy, 3) else (busy, 1)
  | 1 => (true, 2)
  | 2 => (false, 3)
  | _ => (busy, pc)

/-- One step of a trigger with an atomic busy-claim: the check and the
write of the busy flag happen in a single atomic action. -/
def stepAtomic (busy : Bool) (pc : Fin 4) : Bool × Fin 4 :=
  match pc.val with
  | 0 => if busy then (busy, 3) else (true, 2)
  | 1 => (true, 2)
  | 2 => (false, 3)
  | _ => (busy, pc)

/-- Run one scheduler choice: true advances trigger 1, false advances
trigger 2; gap selects the source semantics (true) or the atomic-claim
semantics (false). -/
def trigStep (gap : Bool) (s : TrigSys) (which : Bool) : TrigSys :=
  if which then
    let r := (if gap then stepGap else stepAtomic) s.busy s.pc1
    { s with busy := r.1, pc1 := r.2 }
  else
    let r := (if gap then stepGap else stepAtomic) s.busy s.pc2
    { s with busy := r.1, pc2 := r.2 }

/-- Run a whole schedule. -/
def runSched (gap : Bool) (sched : List Bool) (s : TrigSys) : TrigSys :=
  sched.foldl (trigStep gap) s

/-- Both triggers idle, busy flag clear. -/
def trigInit : TrigSys := { busy := false, pc1 := 0, pc2 := 0 }

/-- A trigger is actively executing its motion when its program counter
is 2. -/
def motionActive (pc : Fin 4) : Bool := pc == 2

/-- Both motions active at once: the state the at-most-one-motion invariant
forbids. -/
def bothActive (s : TrigSys) : Bool :=
  motionActive s.pc1 && motionActive s.pc2

/-- Invariant of the atomic-claim semantics: the busy flag mirrors whether
some motion is active, the two motions are never active together, and no
trigger sits in the checked-but-not-yet-claimed gap (counter value 1),
since an atomic claim has no such gap. -/
def trigGood (s : TrigSys) : Bool :=
  (s.busy == (motionActive s.pc1 || motionActive s.pc2)) && !(bothActive s)
    && s.pc1 != 1 && s.pc2 != 1

/-- A motion trace that ends by returning the actuators to the home
position: the home sweep is the last thing before the busy release. -/
def returns_home (tr : List Ev) (servos : List Nat) : Prop :=
  (home_moves servos ++ [Ev.releaseBusy]) <:+ tr

instance (tr : List Ev) (servos : List Nat) : Decidable (returns_home tr servos) := by
  unfold returns_home; infer_instance

/-- The busy-claim discipline of one completed motion run: the busy flag is
released and current_action cleared in the final state, the trace opens
with the busy claim under the motion name and closes with the release. -/
def busy_discipline (p : EngineState × List Ev) (name : String) : Prop :=
  p.1.is_moving = false ∧ p.1.current_action = none
    ∧ p.2.head? = some (Ev.claimBusy name) ∧ p.2.getLast? = some Ev.releaseBusy

instance (p : EngineState × List Ev) (name : String) : Decidable (busy_discipline p name) := by
  unfold busy_discipline; infer_instance

/-- Mapping a key-dependent function over the values of an association
list. -/
def mapKV {α β : Type} (g : α → β → β) (d : List (α × β)) : List (α × β) :=
  d.map fun p => (p.1, g p.1 p.2)

/-! Helper lemmas. -/

theorem runActs_allGuarded (fails : Ev → Bool) :
    ∀ acts : List Act, allGuarded acts = true → runActs fails acts = (acts.map actEvent, true) := by
  intro acts
  induction acts with
  | nil => intro _; rfl
  | cons a rest ih =>
    intro h
    cases a with
    | pause ms =>
      have h' : (true && allGuarded rest) = true := h
      rw [Bool.true_and] at h'
      simp [runActs, ih h', actEvent]
    | call e g =>
      have h' : (g && allGuarded rest) = true := h
      rw [Bool.and_eq_true] at h'
      simp [runActs, h'.1, ih h'.2, actEvent]

theorem runActs_noFail :
    ∀ acts : List Act, runActs noFail acts = (acts.map actEvent, true) := by
  intro acts
  induction acts with
  | nil => rfl
  | cons a rest ih =>
    cases a with
    | pause ms => simp [runActs, ih, actEvent]
    | call e g => simp [runActs, noFail, ih, actEvent]

theorem allGuarded_append (l1 l2 : List Act) :
    allGuarded (l1 ++ l2) = (allGuarded l1 && allGuarded l2) := by
  simp [allGuarded, List.all_append]

theorem allGuarded_home (servos : List Nat) : allGuarded (home_acts servos) = true := by
  simp [allGuarded, home_acts, List.all_eq_true]

theorem allGuarded_estop (servos : List Nat) :
    allGuarded (emergency_stop_acts servos) = true := by
  simp [allGuarded, emergency_stop_acts, List.all_append, List.all_eq_true]

theorem map_actEvent_home (servos : List Nat) :
    (home_acts servos).map actEvent = home_moves servos := by
  simp [home_acts, home_moves, List.map_map, actEvent, Function.comp]

theorem run_motion_eq (fails : Ev → Bool) (s : EngineState) (name : String)
    (acts : List Act) (h1 : s.connected = true) (h2 : s.is_moving = false) :
    run_motion fails s name acts =
      ({ s with is_moving := false, current_action := none },
       Ev.claimBusy name :: (runActs fails acts).1 ++ [Ev.releaseBusy]) := by
  simp [run_motion, h1, h2]

theorem suffix_cons_of {α : Type} (a : α) {t l : List α} (h : t <:+ l) : t <:+ a :: l :=
  h.trans (List.suffix_cons a l)

theorem suffix_append_of {α : Type} (l1 : List α) {t l2 : List α} (h : t <:+ l2) :
    t <:+ l1 ++ l2 :=
  h.trans (List.suffix_append l1 l2)

theorem dinsert_mapKV {α β : Type} [BEq α] [LawfulBEq α] (g : α → β → β)
    (d : List (α × β)) (k : α) (v : β) :
    dinsert (mapKV g d) k (g k v) = mapKV g (dinsert d k v) := by
  induction d with
  | nil => rfl
  | cons p rest ih =>
    obtain ⟨k0, v0⟩ := p
    by_cases hk : k0 = k
    · subst hk
      simp [dinsert, mapKV]
    · have hb : (k0 == k) = false := by simp [hk]
      simp [dinsert, mapKV, hb] at ih ⊢
      simpa [mapKV] using ih

theorem lookup_mapKV {α β : Type} [BEq α] [LawfulBEq α] (g : α → β → β)
    (d : List (α × β)) (k : α) :
    (mapKV g d).lookup k = (d.lookup k).map (g k) := by
  induction d with
  | nil => rfl
  | cons p rest ih =>
    obtain ⟨k0, v0⟩ := p
    by_cases hk : k = k0
    · subst hk
      simp [mapKV, List.lookup]
    · have hb : (k == k0) = false := by simp [hk]
      simp only [mapKV, List.map_cons, List.lookup, hb]
      simpa [mapKV] using ih

theorem keys_mapKV {α β : Type} (g : α → β → β) (d : List (α × β)) :
    (mapKV g d).map Prod.fst = d.map Prod.fst := by
  induction d with
  | nil => rfl
  | cons p rest ih => simp [mapKV] at ih ⊢

theorem transformFrame_eq_mapKV (fd : List (Nat × Rat)) :
    transformFrame fd = mapKV reversal_transform fd := rfl

theorem insertRow_mapKV (acc : Frames) (r : Row) :
    insertRow (mapKV (fun _ fd => transformFrame fd) acc) r
      = mapKV (fun _ fd => transformFrame fd) (insertRowRaw acc r) := by
  unfold insertRow insertRowRaw
  rw [lookup_mapKV]
  cases ho : acc.lookup r.frame with
  | none =>
    exact dinsert_mapKV (fun _ fd => transformFrame fd) acc r.frame
      (dinsert [] r.servo_id r.angle)
  | some fd =>
    have h1 : dinsert (transformFrame fd) r.servo_id (reversal_transform r.servo_id r.angle)
        = transformFrame (dinsert fd r.servo_id r.angle) := by
      rw [transformFrame_eq_mapKV fd, transformFrame_eq_mapKV]
      exact dinsert_mapKV reversal_transform fd r.servo_id r.angle
    show dinsert (mapKV (fun _ fd => transformFrame fd) acc) r.frame
        (dinsert (transformFrame fd) r.servo_id (reversal_transform r.servo_id r.angle))
      = mapKV (fun _ fd => transformFrame fd) (dinsert acc r.frame (dinsert fd r.servo_id r.angle))
    rw [h1]
    exact dinsert_mapKV (fun _ fd => transformFrame fd) acc r.frame _

theorem loadFrames_eq_transform (rows : List Row) :
    loadFrames rows = mapKV (fun _ fd => transformFrame fd) (loadFramesRaw rows) := by
  unfold loadFrames loadFramesRaw
  suffices h : ∀ acc : Frames,
      rows.foldl insertRow (mapKV (fun _ fd => transformFrame fd) acc)
        = mapKV (fun _ fd => transformFrame fd) (rows.foldl insertRowRaw acc) by
    simpa using h []
  induction rows with
  | nil => intro acc; rfl
  | cons r rest ih =>
    intro acc
    simp only [List.foldl_cons]
    rw [insertRow_mapKV]
    exact ih (insertRowRaw acc r)

theorem trigStep_atomic_preserves :
    ∀ (s : TrigSys) (w : Bool), trigGood s = true → trigGood (trigStep false s w) = true := by
  decide

theorem trigGood_no_both : ∀ s : TrigSys, trigGood s = true → bothActive s = false := by
  decide

theorem runSched_atomic_preserves (sched : List Bool) :
    ∀ s : TrigSys, trigGood s = true → trigGood (runSched false sched s) = true := by
  induction sched with
  | nil => intro s h; simpa [runSched] using h
  | cons w rest ih =>
    intro s h
    simpa [runSched] using ih (trigStep false s w) (trigStep_atomic_preserves s w h)

/-! Claim theorems. -/

/-- C1, counterexample: the busy-claim of the source is not atomic.  The
busy check (play_sequence line 84, simple_wave line 158) and the write
is_moving = True (lines 104 and 162) are separate steps; under the
interleaving in which both triggers pass the check before either writes
the flag (schedule: trigger 1 checks, trigger 2 checks, trigger 1 claims,
trigger 2 claims), both motions are active at once. -/
theorem claim_C1_counterexample_gap_interleaving :
    bothActive (runSched true [true, false, true, false] trigInit) = true := by
  decide

/-- C1 (amended): the check-then-set busy claim of the source is not
atomic, and some interleaving of two concurrent triggers leaves both
motions active at once; had the claim been a single atomic
check-and-set step, at most one of the two motions would be active under
every interleaving, which is what this theorem proves for the atomic-claim
semantics. -/
theorem claim_C1_atomic_claim_mutual_exclusion :
    ∀ sched : List Bool, bothActive (runSched false sched trigInit) = false := by
  intro sched
  exact trigGood_no_both _ (runSched_atomic_preserves sched trigInit (by decide))

/-- C2, counterexample: emergency_stop (line 268) clears is_moving but
never clears current_action, so after connect, the playback thread
claiming busy for "wave", and then emergency_stop, the state has
is_moving = false with current_action = some "wave": the invariant
busy == true iff currentAction != none is violated at an operation
boundary. -/
theorem claim_C2_counterexample_estop_breaks_inv :
    ¬ engineInv (applyOps initState
      [EngineOp.connect [1, 2, 3], EngineOp.playStart "wave" true, EngineOp.estop]) := by
  decide

/-- C2 (amended): the invariant busy == true iff currentAction != none is
preserved by connect, by the start and finish of program playback, by the
start and finish of a procedural motion, and by disconnect; emergency_stop
preserves it only when no action is recorded, because it resets is_moving
without touching current_action. -/
theorem claim_C2_engine_inv_preserved (s : EngineState) (op : EngineOp)
    (hinv : engineInv s) (hstop : op = EngineOp.estop → s.current_action = none) :
    engineInv (applyOp s op) := by
  cases op with
  | connect okServos => simpa [applyOp, engineInv] using hinv
  | playStart name found =>
    by_cases h1 : (!s.connected || s.is_moving) = true
    · simpa [applyOp, h1] using hinv
    · by_cases h2 : found = true
      · simp [applyOp, h1, h2, engineInv]
      · simp only [Bool.not_eq_true] at h2
        simpa [applyOp, h1, h2] using hinv
  | playFinish => simp [applyOp, engineInv]
  | procStart name =>
    by_cases h1 : (!s.connected || s.is_moving) = true
    · simpa [applyOp, h1] using hinv
    · simp [applyOp, h1, engineInv]
  | procFinish => simp [applyOp, engineInv]
  | estop => simp [applyOp, engineInv, hstop rfl]
  | disconnect => simpa [applyOp, engineInv] using hinv

/-- C2, witness for the amended theorem: the invariant holds in the
initial state, the initial state records no action, and emergency_stop
from it preserves the invariant. -/
theorem claim_C2_witness :
    engineInv initState ∧ initState.current_action = none
      ∧ engineInv (applyOp initState EngineOp.estop) :=
  ⟨by decide, rfl,
    claim_C2_engine_inv_preserved initState EngineOp.estop (by decide) (fun _ => rfl)⟩

/-- C3, counterexample: with the robot connected but busy and the wave
program present in the store, trigger dispatch still invokes the
procedural wave fallback, although play_sequence failed because of the
busy flag and not because the program was missing.  This refutes the
claim that the fallback is invoked only on "program not found". -/
theorem claim_C3_counterexample_fallback_while_busy :
    CallEv.procedural "wave"
        ∈ run_action ["poses/wave.csv"]
            { connected := true, is_moving := true, current_action := some "nod",
              servos := [1, 2, 3] } "wave"
      ∧ (["poses/wave.csv"] : List String).contains (seqFile "wave") = true := by
  decide

/-- C3 (amended): for wave, nod and dance the corresponding procedural
motion is invoked exactly when play_sequence returns False - for any of
its failure reasons (program not found, or engine busy; the procedural
motion then rejects on its own busy check), not only on "program not
found"; for custom and for any other name no procedural fallback is ever
invoked. -/
theorem claim_C3_fallback_iff_play_failed (store : List String) (s : EngineState)
    (action : String) (n : String) :
    CallEv.procedural n ∈ run_action store s action
      ↔ n = action ∧ (action = "wave" ∨ action = "nod" ∨ action = "dance")
        ∧ (play_sequence store s action).ok = false := by
  unfold run_action
  by_cases hw : action = "wave"
  · subst hw
    cases hok : (play_sequence store s "wave").ok <;> simp [hok, eq_comm]
  · by_cases hn : action = "nod"
    · subst hn
      cases hok : (play_sequence store s "nod").ok <;> simp [hok, eq_comm]
    · by_cases hd : action = "dance"
      · subst hd
        cases hok : (play_sequence store s "dance").ok <;> simp [hok, eq_comm]
      · by_cases hc : action = "custom"
        · subst hc; simp
        · simp [hw, hn, hd, hc]

/-- C4: whenever the engine is not connected or already busy,
play_sequence returns False with no side effect: the state is unchanged,
no playback thread is spawned, and no actuator event is issued. -/
theorem claim_C4_play_sequence_rejects_without_side_effect
    (store : List String) (s : EngineState) (name : String)
    (h : s.connected = false ∨ s.is_moving = true) :
    play_sequence store s name
      = { ok := false, state := s, spawned := false, events := [] } := by
  rcases h with h | h <;> simp [play_sequence, h]

/-- C4, witness: the never-connected initial state rejects a wave
request with no side effect. -/
theorem claim_C4_witness :
    (initState.connected = false ∨ initState.is_moving = true)
      ∧ play_sequence [] initState "wave"
          = { ok := false, state := initState, spawned := false, events := [] } :=
  ⟨Or.inl rfl,
    claim_C4_play_sequence_rejects_without_side_effect [] initState "wave" (Or.inl rfl)⟩

/-- C10: when the sequence file for the requested name is absent from the
store, play_sequence detects it synchronously and returns False before the
busy flag is ever written: the state is unchanged, no playback thread is
spawned, and no actuator event is issued. -/
theorem claim_C10_not_found_is_synchronous_and_pure
    (store : List String) (s : EngineState) (name : String)
    (h1 : s.connected = true) (h2 : s.is_moving = false)
    (h3 : store.contains (seqFile name) = false) :
    play_sequence store s name
      = { ok := false, state := s, spawned := false, events := [] } := by
  have h3' : seqFile name ∉ store := by simpa using h3
  simp [play_sequence, h1, h2, h3']

/-- C10, witness: a connected, idle engine with an empty program store
rejects a wave request synchronously and without side effect. -/
theorem claim_C10_witness :
    ((⟨true, false, none, [1, 2, 3]⟩ : EngineState).connected = true)
      ∧ ((⟨true, false, none, [1, 2, 3]⟩ : EngineState).is_moving = false)
      ∧ (([] : List String).contains (seqFile "wave") = false)
      ∧ play_sequence [] ⟨true, false, none, [1, 2, 3]⟩ "wave"
          = { ok := false, state := ⟨true, false, none, [1, 2, 3]⟩,
              spawned := false, events := [] } :=
  ⟨rfl, rfl, by decide,
    claim_C10_not_found_is_synchronous_and_pure [] ⟨true, false, none, [1, 2, 3]⟩ "wave"
      rfl rfl (by decide)⟩

/-- C6: emergency_stop first clears the busy flag, then attempts
disable_torque on every connected servo, sleeps one second, and attempts
enable_torque on every connected servo - in that order, each torque call
individually guarded - and completes without an escaping exception under
every pattern of actuator failures; current_action and the servo set are
untouched. -/
theorem claim_C6_emergency_stop_behavior (fails : Ev → Bool) (s : EngineState) :
    emergency_stop fails s
      = ({ s with is_moving := false },
         Ev.clearBusy ::
           (s.servos.map Ev.disableTorque ++ Ev.sleepMs 1000 :: s.servos.map Ev.enableTorque),
         true) := by
  unfold emergency_stop
  rw [runActs_allGuarded fails _ (allGuarded_estop s.servos)]
  simp [emergency_stop_acts, actEvent, List.map_append, List.map_map, Function.comp_def]

/-- C5: the playback trace of a loaded motion program is exactly what the
specification describes: records grouped into frames with the ReversalSet
transform applied to each angle exactly once, frames sorted by index
ascending, each frame sending a move to every connected actuator it
references, a 500 ms delay between consecutive frames and none after the
final frame, then a 500 ms settle delay and the home sweep. -/
theorem claim_C5_playback_trace_matches_spec (servos : List Nat) (rows : List Row) :
    play_thread_trace servos rows = spec_playback_trace servos rows := by
  simp only [play_thread_trace, spec_playback_trace]
  rw [loadFrames_eq_transform]
  rfl

/-- C7: every smile event increments the smile counter and stamps the
event time no matter the engine state, the outcome is broadcast to all
connected clients rather than sent to the sender alone, and the payload is
the Moving record carrying the smile score and the updated movement count
on success, or one of the two Busy records on rejection. -/
theorem claim_C7_smile_counted_and_broadcast (store : List String) (s : EngineState)
    (st : Stats) (now : Nat) (score : Rat) (action : String) :
    (handle_smile store s st now score action).stats.total_smiles = st.total_smiles + 1
    ∧ (handle_smile store s st now score action).stats.last_smile = some now
    ∧ (handle_smile store s st now score action).toAll = true
    ∧ (∀ (sender : Nat) (clients : List Nat),
        (deliver (handle_smile store s st now score action).toAll sender clients
            (handle_smile store s st now score action).resp.message).map Prod.fst = clients)
    ∧ ((handle_smile store s st now score action).resp
          = { message := "Robot performing: " ++ action, status := "Moving",
              smile_score := some score, total_movements := some (st.total_movements + 1) }
        ∨ (handle_smile store s st now score action).resp
          = { message := "Robot is busy or action failed", status := "Busy",
              smile_score := none, total_movements := none }
        ∨ (handle_smile store s st now score action).resp
          = { message := "Robot is already moving", status := "Busy",
              smile_score := none, total_movements := none }) := by
  by_cases hm : s.is_moving = true
  · have he : handle_smile store s st now score action
        = { stats := { st with total_smiles := st.total_smiles + 1, last_smile := some now },
            resp := { message := "Robot is already moving", status := "Busy",
                      smile_score := none, total_movements := none },
            toAll := true } := by
      simp [handle_smile, hm]
    rw [he]
    exact ⟨rfl, rfl, rfl,
      fun sender clients => by simp [deliver, broadcast, List.map_map, Function.comp_def],
      Or.inr (Or.inr rfl)⟩
  · have hm' : s.is_moving = false := by simpa using hm
    by_cases ht : (trigger_robot_action store s action).ok = true
    · have he : handle_smile store s st now score action
          = ⟨⟨st.total_smiles + 1, st.total_movements + 1, some now⟩,
             ⟨"Robot performing: " ++ action, "Moving", some score,
              some (st.total_movements + 1)⟩,
             true⟩ := by
        simp [handle_smile, hm', ht]
      rw [he]
      exact ⟨rfl, rfl, rfl,
        fun sender clients => by simp [deliver, broadcast, List.map_map, Function.comp_def],
        Or.inl rfl⟩
    · have ht' : (trigger_robot_action store s action).ok = false := by simpa using ht
      have he : handle_smile store s st now score action
          = { stats := { st with total_smiles := st.total_smiles + 1, last_smile := some now },
              resp := { message := "Robot is busy or action failed", status := "Busy",
                        smile_score := none, total_movements := none },
              toAll := true } := by
        simp [handle_smile, hm', ht']
      rw [he]
      exact ⟨rfl, rfl, rfl,
        fun sender clients => by simp [deliver, broadcast, List.map_map, Function.comp_def],
        Or.inr (Or.inl rfl)⟩

theorem run_motion_noFail_trace (s : EngineState) (name : String) (acts : List Act)
    (h1 : s.connected = true) (h2 : s.is_moving = false) :
    (run_motion noFail s name acts).2
      = Ev.claimBusy name :: acts.map actEvent ++ [Ev.releaseBusy] := by
  rw [run_motion_eq noFail s name acts h1 h2, runActs_noFail]

theorem run_motion_discipline (fails : Ev → Bool) (s : EngineState) (name : String)
    (acts : List Act) (h1 : s.connected = true) (h2 : s.is_moving = false) :
    busy_discipline (run_motion fails s name acts) name := by
  rw [run_motion_eq fails s name acts h1 h2]
  refine ⟨rfl, rfl, rfl, ?_⟩
  exact List.getLast?_concat (Ev.claimBusy name :: (runActs fails acts).1)

theorem suffix_after_sleep (x w : Ev) (pre tail : List Ev) (z : Ev) :
    (tail ++ [z]) <:+ x :: (pre ++ w :: tail) ++ [z] := by
  have heq : x :: (pre ++ w :: tail) ++ [z] = (x :: pre ++ [w]) ++ (tail ++ [z]) := by
    simp
  rw [heq]
  exact List.suffix_append _ _

theorem suffix_tail_append (x : Ev) (pre tail : List Ev) (z : Ev) :
    (tail ++ [z]) <:+ x :: (pre ++ tail) ++ [z] := by
  have heq : x :: (pre ++ tail) ++ [z] = (x :: pre) ++ (tail ++ [z]) := by
    simp
  rw [heq]
  exact List.suffix_append _ _

theorem suffix_pair_end (x y z : Ev) (pre : List Ev) :
    [y, z] <:+ x :: (pre ++ [y]) ++ [z] := by
  have heq : x :: (pre ++ [y]) ++ [z] = (x :: pre) ++ [y, z] := by
    simp
  rw [heq]
  exact List.suffix_append _ _

theorem wave_trace_returns_home (s : EngineState) (h1 : s.connected = true)
    (h2 : s.is_moving = false) : returns_home (simple_wave noFail s).2 s.servos := by
  unfold returns_home simple_wave
  rw [run_motion_noFail_trace s "wave" (wave_acts s.servos) h1 h2]
  have hsplit : (wave_acts s.servos).map actEvent
      = (wave_pre s.servos).map actEvent ++ Ev.sleepMs 500 :: home_moves s.servos := by
    simp [wave_acts, actEvent, map_actEvent_home]
  rw [hsplit]
  exact suffix_after_sleep _ _ _ _ _

theorem dance_trace_returns_home (s : EngineState) (h1 : s.connected = true)
    (h2 : s.is_moving = false) : returns_home (simple_dance noFail s).2 s.servos := by
  unfold returns_home simple_dance
  rw [run_motion_noFail_trace s "dance" (dance_acts s.servos) h1 h2]
  have hsplit : (dance_acts s.servos).map actEvent
      = (dance_pre s.servos).map actEvent ++ home_moves s.servos := by
    simp [dance_acts, map_actEvent_home]
  rw [hsplit]
  exact suffix_tail_append _ _ _ _

theorem nod_trace_recenters (s : EngineState) (h1 : s.connected = true)
    (h2 : s.is_moving = false) (h3 : 3 ∈ s.servos) :
    [Ev.move 3 120, Ev.releaseBusy] <:+ (simple_nod noFail s).2 := by
  unfold simple_nod
  rw [run_motion_noFail_trace s "nod" (nod_acts s.servos) h1 h2]
  have hsplit : (nod_acts s.servos).map actEvent
      = ((List.replicate 3 [Act.call (Ev.move 3 100) false, Act.pause 300,
            Act.call (Ev.move 3 140) false, Act.pause 300]).flatten).map actEvent
        ++ [Ev.move 3 120] := by
    simp [nod_acts, h3, actEvent]
  rw [hsplit]
  exact suffix_pair_end _ _ _ _

/-- C8, counterexample: during simple_nod with servos 1, 2 and 3 connected
and no actuator failure, servo 1 never receives the center command (it
receives no command at all): simple_nod does not return the actuators to
the home position before finishing, unlike simple_wave and simple_dance,
because it never calls set_home_position. -/
theorem claim_C8_counterexample_nod_skips_home :
    (1 ∈ ([1, 2, 3] : List Nat))
      ∧ Ev.move 1 120 ∉ (simple_nod noFail ⟨true, false, none, [1, 2, 3]⟩).2
      ∧ ¬ returns_home (simple_nod noFail ⟨true, false, none, [1, 2, 3]⟩).2 [1, 2, 3] := by
  decide

/-- C8 (amended): every procedural motion runs under the busy-claim
discipline - it claims busy with its name on entry and releases busy and
clears the recorded action on completion or internal error, for every
pattern of actuator failures; simple_wave and simple_dance end a
failure-free run by returning the actuators to the home position, while
simple_nod performs no home sweep and merely re-centers servo 3 when that
servo is connected. -/
theorem claim_C8_procedural_motion_discipline (fails : Ev → Bool) (s : EngineState)
    (h1 : s.connected = true) (h2 : s.is_moving = false) :
    busy_discipline (simple_wave fails s) "wave"
    ∧ busy_discipline (simple_nod fails s) "nod"
    ∧ busy_discipline (simple_dance fails s) "dance"
    ∧ returns_home (simple_wave noFail s).2 s.servos
    ∧ returns_home (simple_dance noFail s).2 s.servos
    ∧ (3 ∈ s.servos → [Ev.move 3 120, Ev.releaseBusy] <:+ (simple_nod noFail s).2) :=
  ⟨run_motion_discipline fails s "wave" (wave_acts s.servos) h1 h2,
   run_motion_discipline fails s "nod" (nod_acts s.servos) h1 h2,
   run_motion_discipline fails s "dance" (dance_acts s.servos) h1 h2,
   wave_trace_returns_home s h1 h2,
   dance_trace_returns_home s h1 h2,
   fun h3 => nod_trace_recenters s h1 h2 h3⟩

/-- C8, witness for the amended theorem: a connected idle engine with
servos 1, 2 and 3. -/
theorem claim_C8_witness :
    ((⟨true, false, none, [1, 2, 3]⟩ : EngineState).connected = true)
      ∧ ((⟨true, false, none, [1, 2, 3]⟩ : EngineState).is_moving = false)
      ∧ busy_discipline (simple_wave noFail ⟨true, false, none, [1, 2, 3]⟩) "wave"
      ∧ busy_discipline (simple_nod noFail ⟨true, false, none, [1, 2, 3]⟩) "nod"
      ∧ busy_discipline (simple_dance noFail ⟨true, false, none, [1, 2, 3]⟩) "dance"
      ∧ returns_home (simple_wave noFail ⟨true, false, none, [1, 2, 3]⟩).2 [1, 2, 3]
      ∧ returns_home (simple_dance noFail ⟨true, false, none, [1, 2, 3]⟩).2 [1, 2, 3]
      ∧ [Ev.move 3 120, Ev.releaseBusy]
          <:+ (simple_nod noFail ⟨true, false, none, [1, 2, 3]⟩).2 := by
  have h := claim_C8_procedural_motion_discipline noFail ⟨true, false, none, [1, 2, 3]⟩ rfl rfl
  exact ⟨rfl, rfl, h.1, h.2.1, h.2.2.1, h.2.2.2.1, h.2.2.2.2.1, h.2.2.2.2.2 (by decide)⟩

/-- C9: whenever the engine is connected, trigger_robot_action returns
True for every action string - even while busy, with no stored program,
and regardless of whether any motion will run - and a smile handled while
connected and idle at check time therefore increments total_movements by
exactly one. -/
theorem claim_C9_trigger_true_when_connected (store : List String)
    (s : EngineState) (st : Stats) (now : Nat) (score : Rat) (action : String) :
    (s.connected = true →
      trigger_robot_action store s action
        = { ok := true, spawned := true, calls := run_action store s action })
    ∧ (s.connected = true → s.is_moving = false →
      (handle_smile store s st now score action).stats.total_movements
        = st.total_movements + 1) := by
  constructor
  · intro hc
    simp [trigger_robot_action, hc]
  · intro hc hb
    simp [handle_smile, hb, trigger_robot_action, hc]

/-- C9, witness: a connected busy engine still reports a successful
trigger; a connected idle engine with an empty store counts one movement
for a smile even though no actuator will ever move. -/
theorem claim_C9_witness :
    ((⟨true, true, some "nod", [1]⟩ : EngineState).connected = true)
      ∧ trigger_robot_action [] ⟨true, true, some "nod", [1]⟩ "wave"
          = { ok := true, spawned := true,
              calls := run_action [] ⟨true, true, some "nod", [1]⟩ "wave" }
      ∧ ((⟨true, false, none, [1]⟩ : EngineState).connected = true)
      ∧ ((⟨true, false, none, [1]⟩ : EngineState).is_moving = false)
      ∧ (handle_smile [] ⟨true, false, none, [1]⟩ ⟨0, 0, none⟩ 5 87 "dance").stats.total_movements
          = 0 + 1 :=
  ⟨rfl,
   (claim_C9_trigger_true_when_connected [] ⟨true, true, some "nod", [1]⟩
      ⟨0, 0, none⟩ 0 0 "wave").1 rfl,
   rfl, rfl,
   (claim_C9_trigger_true_when_connected [] ⟨true, false, none, [1]⟩
      ⟨0, 0, none⟩ 5 87 "dance").2 rfl rfl⟩

end SmileRobot
